import Mathlib

set_option maxHeartbeats 1000000
set_option maxRecDepth 10000

/-! Verification of the RobotRL SAC agent.

Shallow embedding of `robojax/agents/sac/config.py` and
`robojax/agents/sac/sac.py`: the replay-buffer construction performed by
`SAC.__init__`, the training-loop schedule of `SAC.train` (seed phase,
evaluation gate, mask policy, update gating), and the control flow of
`SAC.update_parameters`.  Components of the repository that are not in the
source tree (`robojax/data/buffer.py`, `robojax/agents/sac/loss.py`) are
modelled from the specification where needed; each such definition says so
in its doc comment. -/

/-- Parameter bundles (actor, critic, target critic, temperature) are opaque
differentiable-parameter containers; parameter-wise operations on them are
modelled as operations on a list of rationals. -/
abbrev Params := List ℚ

/-- Explicit PRNG keys (jax PRNGKey values), modelled as naturals. -/
abbrev Key := Nat

/-- Model of jax.random.split(key, 2): two fresh subkeys, distinct from each
other and from the parent key.  The encoding k -> (3k+1, 3k+2) is injective
and never returns the parent. -/
def split2 (k : Key) : Key × Key := (3 * k + 1, 3 * k + 2)

/-- Model of jax.random.split(key, 3): three fresh pairwise-distinct subkeys. -/
def split3 (k : Key) : Key × Key × Key := (3 * k + 1, 3 * k + 2, 3 * k + 3)

/-- From `robojax/agents/sac/config.py` lines 12-95: the `SACConfig`
dataclass, with its exact field list and defaults (ints as Nat where the
code treats them as counts, the possibly-negative frequency fields as Int,
floats as ℚ). -/
structure SACConfig where
  num_seed_steps : Nat
  replay_buffer_capacity : Nat
  batch_size : Nat
  num_envs : Nat := 1
  steps_per_env : Nat := 1
  grad_updates_per_step : Nat := 1
  tau : ℚ := 5 / 1000
  discount : ℚ := 99 / 100
  backup_entropy : Bool := true
  target_entropy : Option ℚ := none
  learnable_temp : Bool := true
  initial_temperature : ℚ := 1
  actor_update_freq : Nat := 1
  target_update_freq : Nat := 1
  eval_freq : Int := 5000
  eval_steps : Nat := 1000
  num_eval_envs : Nat := 4
  log_freq : Int := 1000
  save_freq : Nat := 100000

/-- Value of a `SACConfig` attribute, for modelling Python's dynamic
attribute lookup on the dataclass instance. -/
inductive ConfigVal where
  | natV : Nat → ConfigVal
  | intV : Int → ConfigVal
  | ratV : ℚ → ConfigVal
  | boolV : Bool → ConfigVal
  | optV : Option ℚ → ConfigVal
deriving DecidableEq

/-- Python attribute lookup `getattr(cfg, name)` on a `SACConfig` instance:
returns the field value for each of the nineteen declared fields and `none`
(AttributeError) for every other name. -/
def SACConfig.getattr (cfg : SACConfig) (name : String) : Option ConfigVal :=
  match name with
  | "num_seed_steps" => some (ConfigVal.natV cfg.num_seed_steps)
  | "replay_buffer_capacity" => some (ConfigVal.natV cfg.replay_buffer_capacity)
  | "batch_size" => some (ConfigVal.natV cfg.batch_size)
  | "num_envs" => some (ConfigVal.natV cfg.num_envs)
  | "steps_per_env" => some (ConfigVal.natV cfg.steps_per_env)
  | "grad_updates_per_step" => some (ConfigVal.natV cfg.grad_updates_per_step)
  | "tau" => some (ConfigVal.ratV cfg.tau)
  | "discount" => some (ConfigVal.ratV cfg.discount)
  | "backup_entropy" => some (ConfigVal.boolV cfg.backup_entropy)
  | "target_entropy" => some (ConfigVal.optV cfg.target_entropy)
  | "learnable_temp" => some (ConfigVal.boolV cfg.learnable_temp)
  | "initial_temperature" => some (ConfigVal.ratV cfg.initial_temperature)
  | "actor_update_freq" => some (ConfigVal.natV cfg.actor_update_freq)
  | "target_update_freq" => some (ConfigVal.natV cfg.target_update_freq)
  | "eval_freq" => some (ConfigVal.intV cfg.eval_freq)
  | "eval_steps" => some (ConfigVal.natV cfg.eval_steps)
  | "num_eval_envs" => some (ConfigVal.natV cfg.num_eval_envs)
  | "log_freq" => some (ConfigVal.intV cfg.log_freq)
  | "save_freq" => some (ConfigVal.natV cfg.save_freq)
  | _ => none

/-- From `sac.py` line 110-111: `SAC.train` reads `self.cfg.num_train_steps`
for the loop bound; the attribute lookup either yields the value or raises
AttributeError. -/
def SAC.trainNumTrainSteps (cfg : SACConfig) : Except String ConfigVal :=
  match SACConfig.getattr cfg ("num_train_steps") with
  | some v => Except.ok v
  | none => Except.error ("AttributeError: num_train_steps")

/-- From `sac.py` line 138: `SAC.train` reads `self.cfg.max_episode_length`
for the mask computation; the attribute lookup either yields the value or
raises AttributeError. -/
def SAC.trainMaxEpisodeLength (cfg : SACConfig) : Except String ConfigVal :=
  match SACConfig.getattr cfg ("max_episode_length") with
  | some v => Except.ok v
  | none => Except.error ("AttributeError: max_episode_length")

/-- Observable schedule of one `SAC.train` loop iteration. -/
structure IterTrace where
  seed_action : Bool
  step_after : Nat
  update_called : Bool
  update_actor_flag : Bool
  update_target_flag : Bool
deriving DecidableEq, Repr

/-- From `SAC.train` (sac.py lines 111-163): the iteration whose
pre-increment step counter is `s` selects a seed action iff
`s < num_seed_steps` (line 130), increments the counter and stores exactly
one timestep (lines 136, 145-151, so `s + 1` transitions are stored after
the iteration), calls `update_parameters` iff the post-increment counter
`s + 1` is at least `num_seed_steps` (line 157), and computes the
actor/target gate flags from the post-increment counter (lines 159-160). -/
def trainIter (num_seed_steps actor_update_freq target_update_freq s : Nat) :
    IterTrace :=
  { seed_action := decide (s < num_seed_steps)
  , step_after := s + 1
  , update_called := decide (num_seed_steps ≤ s + 1)
  , update_actor_flag := (s + 1) % actor_update_freq == 0
  , update_target_flag := (s + 1) % target_update_freq == 0 }

/-- Number of loop iterations among the first `N` (the `while` loop of
`SAC.train` visits pre-increment counters 0, 1, ..., N-1 when
`num_train_steps = N`) in which `update_parameters` is called, i.e. the
number of critic updates. -/
def criticUpdateCount (nss auf tuf N : Nat) : Nat :=
  ((List.range N).filter (fun s => (trainIter nss auf tuf s).update_called)).length

/-- Number of loop iterations among the first `N` in which the actor is
updated: `update_parameters` is called with `update_actor = true`. -/
def actorUpdateCount (nss auf tuf N : Nat) : Nat :=
  ((List.range N).filter (fun s =>
    (trainIter nss auf tuf s).update_called
      && (trainIter nss auf tuf s).update_actor_flag)).length

/-- Number of loop iterations among the first `N` whose action is drawn from
the seed sampler. -/
def seedStepCount (nss auf tuf N : Nat) : Nat :=
  ((List.range N).filter (fun s => (trainIter nss auf tuf s).seed_action)).length

/-- From `SAC.train` line 112: the evaluation gate
`step % eval_freq == 0 and step > 0 and step >= num_seed_steps and eval_freq > 0`.
Python evaluates `step % eval_freq` first, so `eval_freq = 0` raises
ZeroDivisionError before any conjunct can short-circuit; Python's `%` agrees
with `Int.fmod` (sign of the divisor). -/
def evalGate (step : Nat) (eval_freq : Int) (num_seed_steps : Nat) :
    Except String Bool :=
  if eval_freq = 0 then Except.error ("ZeroDivisionError")
  else
    Except.ok ((Int.fmod (step : Int) eval_freq == 0) && decide (0 < step)
      && decide (num_seed_steps ≤ step) && decide (0 < eval_freq))

/-- From `SAC.train` line 138: `mask = (~dones) | (ep_lens == self.cfg.max_episode_length)`
computed elementwise per environment; `ep_lens` has already been incremented
for the current step (line 134) and `self.cfg.max_episode_length` is read
dynamically (see `SAC.trainMaxEpisodeLength`), modelled here as a parameter. -/
def computeMask (done : Bool) (ep_len max_episode_length : Nat) : Bool :=
  (!done) || (ep_len == max_episode_length)

/-- The mask is stored into the replay buffer as a float (buffer field
`mask=((), float)` in `SAC.__init__`): booleans become 0.0 / 1.0. -/
def maskFloat (b : Bool) : ℚ := if b then 1 else 0

/-- Ceiling division on naturals, `math.ceil(a / b)` for positive `b`. -/
def ceilDivNat (a b : Nat) : Nat := (a + b - 1) / b

/-- Modelled from the spec: the construction-relevant state of
`GenericBuffer` (`robojax/data/buffer.py` is not in src/).  The spec says the
buffer keeps a ring of transitions per environment with per-environment
capacity `ceil(buffer_size / n_envs)`. -/
structure GenericBuffer where
  buffer_size : Nat
  n_envs : Nat
deriving DecidableEq, Repr

/-- Modelled from the spec: per-environment capacity of a `GenericBuffer`,
`math.ceil(buffer_size / n_envs)`. -/
def GenericBuffer.capacity_per_env (b : GenericBuffer) : Nat :=
  ceilDivNat b.buffer_size b.n_envs

/-- From `SAC.__init__` (sac.py lines 60-62): the replay buffer owned by SAC
is constructed with `buffer_size = cfg.replay_buffer_capacity` and
`n_envs = 1` (a hard-coded literal, independent of `cfg.num_envs`). -/
def SAC.mkReplayBuffer (cfg : SACConfig) : GenericBuffer :=
  { buffer_size := cfg.replay_buffer_capacity, n_envs := 1 }

/-- Modelled from the spec: one `store` into a per-environment ring of
capacity `cap` appends while the ring is not full and otherwise evicts the
oldest entry (FIFO overwrite). -/
def ringStore (cap : Nat) (buf : List Nat) (x : Nat) : List Nat :=
  if buf.length < cap then buf ++ [x] else buf.tail ++ [x]

/-- Retained timesteps of one environment's ring after storing the sequence
`xs` into an initially empty ring of capacity `cap`. -/
def ringContents (cap : Nat) (xs : List Nat) : List Nat :=
  xs.foldl (ringStore cap) []

/-- The configuration of claim C3's scenario: 4 parallel environments and a
total replay capacity of 100. -/
def cfgC3 : SACConfig :=
  { num_seed_steps := 20, replay_buffer_capacity := 100, batch_size := 10
  , num_envs := 4 }

/-- Auxiliary metrics of a critic update (`loss.CriticUpdateAux`). -/
structure CriticUpdateAux where
  critic_loss : ℚ := 0
  q1 : ℚ := 0
  q2 : ℚ := 0
deriving DecidableEq, Repr

/-- Auxiliary metrics of an actor update (`loss.ActorUpdateAux`; the code
default-constructs it when the actor is not updated). -/
structure ActorUpdateAux where
  actor_loss : ℚ := 0
  entropy : ℚ := 0
deriving DecidableEq, Repr

/-- Auxiliary metrics of a temperature update (`loss.TempUpdateAux`). -/
structure TempUpdateAux where
  temp : ℚ := 0
  temp_loss : ℚ := 0
deriving DecidableEq, Repr

/-- The temperature model called as `temp()` returns its scalar value
(spec: temperature exposes a scalar value). -/
def tempValue (t : Params) : ℚ := t.headI

/-- The sampled batch (`robojax/agents/sac/config.py` lines 98-104,
`TimeStep`): per-field arrays with leading dimension batch_size. -/
structure TimeStep where
  action : Params := []
  env_obs : Params := []
  next_env_obs : Params := []
  reward : Params := []
  mask : Params := []
deriving DecidableEq, Repr

/-- The gradient-based loss functions of `robojax/agents/sac/loss.py` (not in
src/), abstracted as parameters with the call signatures used by
`SAC.update_parameters`: `update_critic(key, actor, critic, target_critic,
temp, batch, discount, backup_entropy)`, `update_actor(key, actor, critic,
temp, batch)`, `update_temp(temp, entropy, target_entropy)`. -/
structure LossFns where
  update_critic : Key → Params → Params → Params → Params → TimeStep → ℚ → Bool →
    Params × CriticUpdateAux
  update_actor : Key → Params → Params → Params → TimeStep →
    Params × ActorUpdateAux
  update_temp : Params → ℚ → ℚ → Params × TempUpdateAux

/-- Modelled from the spec: `loss.update_target` (`robojax/agents/sac/loss.py`
is not in src/) performs the parameter-wise Polyak/exponential moving
average, target <- tau * critic + (1 - tau) * target. -/
def Loss.update_target (critic target_critic : Params) (tau : ℚ) : Params :=
  List.zipWith (fun c t => tau * c + (1 - tau) * t) critic target_critic

/-- Result of one `SAC.update_parameters` call: the four parameter bundles
and the auxiliary metrics, returned together as one tuple. -/
structure UpdateResult where
  actor : Params
  critic : Params
  target_critic : Params
  temp : Params
  critic_update_aux : CriticUpdateAux
  actor_update_aux : ActorUpdateAux
  temp_update_aux : TempUpdateAux
deriving DecidableEq, Repr

/-- From `SAC.update_parameters` (sac.py lines 211-245), with the loss
functions abstracted as `fns`.  Mirrors the control flow exactly: split the
key and always update the critic using the actor passed in; initialize
new_actor/new_temp to the inputs; if `update_target`, Polyak-average the
(input) critic into the target; if `update_actor`, split again and update
the actor from the same batch, and additionally update the temperature iff
`cfg.learnable_temp`; return all four bundles in one tuple. -/
def SAC.update_parameters (fns : LossFns) (cfg : SACConfig) (rng_key : Key)
    (actor critic target_critic temp : Params) (batch : TimeStep)
    (update_actor update_target : Bool) : UpdateResult :=
  let ks := split2 rng_key
  let rng_key2 := ks.1
  let critic_update_rng_key := ks.2
  let cres := fns.update_critic critic_update_rng_key actor critic
    target_critic temp batch cfg.discount cfg.backup_entropy
  let new_critic := cres.1
  let critic_update_aux := cres.2
  let new_target :=
    if update_target then Loss.update_target critic target_critic cfg.tau
    else target_critic
  let ares :=
    if update_actor then
      let ks2 := split2 rng_key2
      let actor_update_rng_key := ks2.2
      let au := fns.update_actor actor_update_rng_key actor critic temp batch
      if cfg.learnable_temp then
        let tu := fns.update_temp temp au.2.entropy (cfg.target_entropy.getD 0)
        (au.1, au.2, tu.1, tu.2)
      else
        (au.1, au.2, temp, ({ temp := tempValue temp } : TempUpdateAux))
    else
      (actor, ({} : ActorUpdateAux), temp,
        ({ temp := tempValue temp } : TempUpdateAux))
  { actor := ares.1
  , critic := new_critic
  , target_critic := new_target
  , temp := ares.2.2.1
  , critic_update_aux := critic_update_aux
  , actor_update_aux := ares.2.1
  , temp_update_aux := ares.2.2.2 }

/-- The four parameter bundles held by the `ActorCritic` container that
`SAC.train` threads through the loop. -/
structure ActorCritic where
  actor : Params
  critic : Params
  target_critic : Params
  temp : Params
deriving DecidableEq, Repr

/-- From `SAC.train` lines 181-184: the caller replaces all four parameter
bundles of the container with the four components of the single tuple
returned by `update_parameters` (one atomic swap; nothing else of the
container survives into the new bundles). -/
def SAC.applyUpdate (_ac : ActorCritic) (r : UpdateResult) : ActorCritic :=
  { actor := r.actor, critic := r.critic, target_critic := r.target_critic
  , temp := r.temp }

/-- From `SAC._sample_action` (sac.py lines 77-84): with `seed` set, the
action comes from the seed sampler applied to the key; otherwise the actor's
distribution at the observation is sampled with the key.  The distribution
construction plus sampling is the pure function `actor_sample` of
(actor parameters, observation, key). -/
def SAC.sample_action {A P O : Type} (seed_sampler : Key → A)
    (actor_sample : P → O → Key → A) (rng_key : Key) (actor : P) (env_obs : O)
    (seed : Bool) : A :=
  if seed then seed_sampler rng_key else actor_sample actor env_obs rng_key

/-- From `SAC._env_step` (sac.py lines 86-97, jax path): split the key into
(rng_key, act_rng_key, env_rng_key), sample the action with the fresh
act_rng_key, and step the environment with the fresh env_rng_key; returns
the action together with the environment-step output
(next_obs, next_state, reward, done). -/
def SAC.env_step {A P O S : Type} (seed_sampler : Key → A)
    (actor_sample : P → O → Key → A)
    (env_step_fn : Key → S → A → O × S × ℚ × Bool)
    (rng_key : Key) (env_obs : O) (env_state : S) (actor : P) (seed : Bool) :
    A × O × S × ℚ × Bool :=
  let ks := split3 rng_key
  let act_rng_key := ks.2.1
  let env_rng_key := ks.2.2
  let a := SAC.sample_action seed_sampler actor_sample act_rng_key actor
    env_obs seed
  (a, env_step_fn env_rng_key env_state a)

/-- Concrete loss functions used by the witnesses: each returns its input
parameters unchanged with default metrics. -/
def trivialFns : LossFns :=
  { update_critic := fun _ _ c _ _ _ _ _ => (c, {})
  , update_actor := fun _ a _ _ _ => (a, {})
  , update_temp := fun t _ _ => (t, {}) }

/-- Concrete configuration used by the witnesses (fixed temperature). -/
def cfgW : SACConfig :=
  { num_seed_steps := 20, replay_buffer_capacity := 100, batch_size := 10
  , learnable_temp := false }

/-- C1 (counterexample): with num_envs=1, replay_buffer_capacity=100,
batch_size=10, num_seed_steps=20, actor_update_freq=2 and 30 total training
steps, the loop does NOT perform exactly 10 critic updates and 5 actor
updates: the update gate compares the post-increment counter with
num_seed_steps, so an update cycle already runs in the 20th (final
seed-action) iteration. -/
theorem C1_schedule_counterexample :
    ¬ (criticUpdateCount 20 2 1 30 = 10 ∧ actorUpdateCount 20 2 1 30 = 5) := by
  decide

/-- C1 (amended): with num_seed_steps=20 and actor_update_freq=2, running the
training loop for 30 total steps takes exactly 20 seed-sampled steps
(pre-increment counters 0..19) and performs one gradient update cycle in
every iteration whose post-increment counter is at least 20 (counters
20..30): exactly 11 critic updates, of which the 6 with even post-increment
counter (20, 22, 24, 26, 28, 30) also update the actor. -/
theorem C1_schedule_amended :
    seedStepCount 20 2 1 30 = 20
    ∧ criticUpdateCount 20 2 1 30 = 11
    ∧ actorUpdateCount 20 2 1 30 = 6 := by
  decide

/-- C2: for every SACConfig record (hence for every configuration dict made
of exactly the recognized construction options), the attributes
`num_train_steps` and `max_episode_length` that `SAC.train` reads do not
exist, so the loop-bound and episode-truncation lookups raise
AttributeError; recognized attributes such as `num_seed_steps` do resolve. -/
theorem C2_missing_attributes (cfg : SACConfig) :
    SACConfig.getattr cfg ("num_train_steps") = none
    ∧ SACConfig.getattr cfg ("max_episode_length") = none
    ∧ SAC.trainNumTrainSteps cfg = Except.error ("AttributeError: num_train_steps")
    ∧ SAC.trainMaxEpisodeLength cfg
        = Except.error ("AttributeError: max_episode_length")
    ∧ SACConfig.getattr cfg ("num_seed_steps")
        = some (ConfigVal.natV cfg.num_seed_steps) :=
  ⟨rfl, rfl, rfl, rfl, rfl⟩

/-- C3: with num_envs=4 and replay_buffer_capacity=100, SAC.__init__
constructs its replay buffer with the hard-coded n_envs=1, so the
per-environment capacity is ceil(100/1)=100, not the claimed
ceil(100/4)=25; storing 50 timesteps into that ring retains all 50 of them
(under the claimed capacity 25, only the most recent 25 would remain). -/
theorem C3_buffer_env_capacity :
    (SAC.mkReplayBuffer cfgC3).n_envs = 1
    ∧ cfgC3.num_envs = 4
    ∧ (SAC.mkReplayBuffer cfgC3).capacity_per_env = 100
    ∧ ceilDivNat cfgC3.replay_buffer_capacity cfgC3.num_envs = 25
    ∧ (SAC.mkReplayBuffer cfgC3).capacity_per_env
        ≠ ceilDivNat cfgC3.replay_buffer_capacity cfgC3.num_envs
    ∧ ringContents (SAC.mkReplayBuffer cfgC3).capacity_per_env (List.range 50)
        = List.range 50
    ∧ ringContents 25 (List.range 50) = (List.range 50).drop 25 := by
  refine ⟨rfl, rfl, rfl, rfl, by decide, by decide, by decide⟩

/-- C4: the stored transition's mask equals (NOT done) OR
(episode_length == max_episode_length): it is 1 exactly when the episode is
not done or the (incremented) episode length equals max_episode_length; in
particular it is 0 for a true early termination (done with length strictly
below the limit), 1 for a time-limit termination (done with length equal to
the limit), and 1 whenever not done. -/
theorem C4_mask_policy (done : Bool) (ep_len maxLen : Nat) :
    (computeMask done ep_len maxLen = true ↔ (done = false ∨ ep_len = maxLen))
    ∧ (done = true → ep_len < maxLen →
        maskFloat (computeMask done ep_len maxLen) = 0)
    ∧ (done = true → ep_len = maxLen →
        maskFloat (computeMask done ep_len maxLen) = 1)
    ∧ (done = false → maskFloat (computeMask done ep_len maxLen) = 1) := by
  refine ⟨?_, ?_, ?_, ?_⟩
  · cases done <;> simp [computeMask]
  · intro hd hlt
    subst hd
    have hne : ep_len ≠ maxLen := Nat.ne_of_lt hlt
    simp [computeMask, maskFloat, hne]
  · intro hd heq
    subst hd
    subst heq
    simp [computeMask, maskFloat]
  · intro hd
    subst hd
    simp [computeMask, maskFloat]

/-- C4 witness: concrete evaluations of the three mask cases with
max_episode_length = 5. -/
theorem C4_mask_policy_witness :
    maskFloat (computeMask true 3 5) = 0
    ∧ maskFloat (computeMask true 5 5) = 1
    ∧ maskFloat (computeMask false 3 5) = 1 :=
  ⟨(C4_mask_policy true 3 5).2.1 rfl (by decide),
   (C4_mask_policy true 5 5).2.2.1 rfl rfl,
   (C4_mask_policy false 3 5).2.2.2 rfl⟩

/-- Helper: the Polyak average with tau = 1 returns the critic parameters
exactly, parameter-wise, when the two bundles have the same shape. -/
theorem polyak_tau_one (c tc : Params) (h : c.length = tc.length) :
    Loss.update_target c tc 1 = c := by
  induction c generalizing tc with
  | nil => rfl
  | cons x xs ih =>
      cases tc with
      | nil => simp at h
      | cons y ys =>
          have h2 : xs.length = ys.length := by simpa using h
          simp only [Loss.update_target, List.zipWith] at ih ⊢
          rw [ih ys h2]
          norm_num

/-- Helper: the Polyak average with tau = 0 leaves the target parameters
unchanged, parameter-wise, when the two bundles have the same shape. -/
theorem polyak_tau_zero (c tc : Params) (h : c.length = tc.length) :
    Loss.update_target c tc 0 = tc := by
  induction c generalizing tc with
  | nil =>
      cases tc with
      | nil => rfl
      | cons y ys => simp at h
  | cons x xs ih =>
      cases tc with
      | nil => simp at h
      | cons y ys =>
          have h2 : xs.length = ys.length := by simpa using h
          simp only [Loss.update_target, List.zipWith] at ih ⊢
          rw [ih ys h2]
          norm_num

/-- C5: within one `update_parameters` call, the critic is computed by
`update_critic` from the actor bundle passed into the cycle (the same
expression whether or not the actor is updated in the cycle, i.e. prior to
any actor update), the actor update is computed from the very same sampled
batch that the critic update consumed, and the caller installs all four
returned bundles as the four fields of the container in one swap. -/
theorem C5_update_ordering (fns : LossFns) (cfg : SACConfig) (k : Key)
    (a c tc t : Params) (b : TimeStep) (ua ut : Bool) (ac : ActorCritic) :
    (SAC.update_parameters fns cfg k a c tc t b ua ut).critic
      = (fns.update_critic (split2 k).2 a c tc t b cfg.discount
          cfg.backup_entropy).1
    ∧ (SAC.update_parameters fns cfg k a c tc t b true ut).actor
      = (fns.update_actor (split2 (split2 k).1).2 a c t b).1
    ∧ SAC.applyUpdate ac (SAC.update_parameters fns cfg k a c tc t b ua ut)
      = { actor := (SAC.update_parameters fns cfg k a c tc t b ua ut).actor
        , critic := (SAC.update_parameters fns cfg k a c tc t b ua ut).critic
        , target_critic :=
            (SAC.update_parameters fns cfg k a c tc t b ua ut).target_critic
        , temp := (SAC.update_parameters fns cfg k a c tc t b ua ut).temp } := by
  refine ⟨rfl, ?_, rfl⟩
  by_cases hl : cfg.learnable_temp <;>
    simp [SAC.update_parameters, hl]

/-- C6: with `update_target` true, the returned target critic is the
parameter-wise Polyak average tau * critic + (1 - tau) * target of the
input critic and target; with tau = 1 it equals the critic exactly, with
tau = 0 it is unchanged, and with `update_target` false it is unchanged. -/
theorem C6_polyak_target (fns : LossFns) (cfg : SACConfig) (k : Key)
    (a c tc t : Params) (b : TimeStep) (ua : Bool)
    (h : c.length = tc.length) :
    (SAC.update_parameters fns cfg k a c tc t b ua true).target_critic
      = List.zipWith (fun x y => cfg.tau * x + (1 - cfg.tau) * y) c tc
    ∧ (SAC.update_parameters fns { cfg with tau := 1 } k a c tc t b ua
        true).target_critic = c
    ∧ (SAC.update_parameters fns { cfg with tau := 0 } k a c tc t b ua
        true).target_critic = tc
    ∧ (SAC.update_parameters fns cfg k a c tc t b ua false).target_critic
      = tc := by
  refine ⟨rfl, ?_, ?_, rfl⟩
  · exact polyak_tau_one c tc h
  · exact polyak_tau_zero c tc h

/-- C6 witness: concrete Polyak update on two-parameter bundles. -/
theorem C6_polyak_target_witness :
    (([2, 4] : Params).length = ([10, 20] : Params).length)
    ∧ (SAC.update_parameters trivialFns cfgW 0 [] [2, 4] [10, 20] [] {} false
        true).target_critic
      = List.zipWith (fun x y => cfgW.tau * x + (1 - cfgW.tau) * y) [2, 4]
          [10, 20]
    ∧ (SAC.update_parameters trivialFns { cfgW with tau := 1 } 0 [] [2, 4]
        [10, 20] [] {} false true).target_critic = [2, 4]
    ∧ (SAC.update_parameters trivialFns { cfgW with tau := 0 } 0 [] [2, 4]
        [10, 20] [] {} false true).target_critic = [10, 20]
    ∧ (SAC.update_parameters trivialFns cfgW 0 [] [2, 4] [10, 20] [] {} false
        false).target_critic = [10, 20] := by
  have h := C6_polyak_target trivialFns cfgW 0 [] [2, 4] [10, 20] [] {}
    false rfl
  exact ⟨rfl, h.1, h.2.1, h.2.2.1, h.2.2.2⟩

/-- C7: in every update cycle the critic update is performed
unconditionally; the actor bundle is returned unchanged unless
`update_actor` is true; the target critic is returned unchanged unless
`update_target` is true; and the temperature is returned unchanged unless
both `update_actor` and `cfg.learnable_temp` are true. -/
theorem C7_frame_conditions (fns : LossFns) (cfg : SACConfig) (k : Key)
    (a c tc t : Params) (b : TimeStep) (ua ut : Bool) :
    ((SAC.update_parameters fns cfg k a c tc t b ua ut).critic
      = (fns.update_critic (split2 k).2 a c tc t b cfg.discount
          cfg.backup_entropy).1)
    ∧ (ua = false → (SAC.update_parameters fns cfg k a c tc t b ua ut).actor = a)
    ∧ (ut = false →
        (SAC.update_parameters fns cfg k a c tc t b ua ut).target_critic = tc)
    ∧ (ua = false → (SAC.update_parameters fns cfg k a c tc t b ua ut).temp = t)
    ∧ (cfg.learnable_temp = false →
        (SAC.update_parameters fns cfg k a c tc t b ua ut).temp = t) := by
  refine ⟨rfl, ?_, ?_, ?_, ?_⟩
  · intro h
    subst h
    rfl
  · intro h
    subst h
    rfl
  · intro h
    subst h
    rfl
  · intro h
    cases ua <;> simp [SAC.update_parameters, h]

/-- C7 witness: with both flags false and a fixed temperature
configuration, the actor, target critic and temperature come back unchanged
at concrete inputs. -/
theorem C7_frame_conditions_witness :
    (SAC.update_parameters trivialFns cfgW 0 [1] [2] [3] [4] {} false
        false).actor = [1]
    ∧ (SAC.update_parameters trivialFns cfgW 0 [1] [2] [3] [4] {} false
        false).target_critic = [3]
    ∧ (SAC.update_parameters trivialFns cfgW 0 [1] [2] [3] [4] {} false
        false).temp = [4]
    ∧ (SAC.update_parameters trivialFns cfgW 0 [1] [2] [3] [4] {} true
        false).temp = [4] := by
  have h1 := C7_frame_conditions trivialFns cfgW 0 [1] [2] [3] [4] {} false
    false
  have h2 := C7_frame_conditions trivialFns cfgW 0 [1] [2] [3] [4] {} true
    false
  exact ⟨h1.2.1 rfl, h1.2.2.1 rfl, h1.2.2.2.1 rfl, h2.2.2.2.2 rfl⟩

/-- C8: an iteration whose pre-increment counter is below num_seed_steps
draws its action from the seed sampler (and conversely), and whenever the
iteration calls `update_parameters`, at least num_seed_steps transitions
have already been taken and stored; contrapositively, no iteration with
fewer than num_seed_steps stored transitions performs a gradient update. -/
theorem C8_seed_phase {A P O : Type} (nss auf tuf s : Nat)
    (seed_sampler : Key → A) (actor_sample : P → O → Key → A) (k : Key)
    (actor : P) (obs : O) :
    (s < nss → (trainIter nss auf tuf s).seed_action = true)
    ∧ ((trainIter nss auf tuf s).seed_action = false → nss ≤ s)
    ∧ (SAC.sample_action seed_sampler actor_sample k actor obs
        (trainIter nss auf tuf s).seed_action
      = if s < nss then seed_sampler k else actor_sample actor obs k)
    ∧ ((trainIter nss auf tuf s).update_called = true →
        nss ≤ (trainIter nss auf tuf s).step_after)
    ∧ ((trainIter nss auf tuf s).step_after < nss →
        (trainIter nss auf tuf s).update_called = false) := by
  refine ⟨?_, ?_, ?_, ?_, ?_⟩
  · simp [trainIter]
  · simp [trainIter]
  · by_cases hlt : s < nss <;> simp [trainIter, SAC.sample_action, hlt]
  · simp [trainIter]
  · simp [trainIter]

/-- C8 witness: with num_seed_steps = 20, iteration 7 draws its action from
the seed sampler, and the updating iteration 25 has 26 ≥ 20 stored
transitions. -/
theorem C8_seed_phase_witness :
    (trainIter 20 2 1 7).seed_action = true
    ∧ (20 ≤ (trainIter 20 2 1 25).step_after) :=
  ⟨(C8_seed_phase 20 2 1 7 (fun _ => (0 : ℚ)) (fun _ _ _ => (1 : ℚ)) 0
      (0 : ℚ) (0 : ℚ)).1 (by decide),
   (C8_seed_phase 20 2 1 25 (fun _ => (0 : ℚ)) (fun _ _ _ => (1 : ℚ)) 0
      (0 : ℚ) (0 : ℚ)).2.2.2.1 (by decide)⟩

/-- Helper: exact characterization of the evaluation gate of `SAC.train`. -/
theorem evalGate_ok_iff (step nss : Nat) (ef : Int) :
    evalGate step ef nss = Except.ok true ↔
      (Int.fmod (step : Int) ef = 0 ∧ 0 < step ∧ nss ≤ step ∧ 0 < ef) := by
  unfold evalGate
  by_cases hef : ef = 0
  · subst hef
    simp only [if_pos rfl]
    constructor
    · intro h
      cases h
    · rintro ⟨-, -, -, hpos⟩
      exact absurd hpos (by omega)
  · rw [if_neg hef]
    simp only [Except.ok.injEq, Bool.and_eq_true, beq_iff_eq,
      decide_eq_true_eq]
    constructor
    · rintro ⟨⟨⟨h1, h2⟩, h3⟩, h4⟩
      exact ⟨h1, h2, h3, h4⟩
    · rintro ⟨h1, h2, h3, h4⟩
      exact ⟨⟨⟨h1, h2⟩, h3⟩, h4⟩

/-- C9: an evaluation rollout is triggered iff step % eval_freq == 0, step >
0, step ≥ num_seed_steps and eval_freq > 0 all hold; in particular it never
triggers at step 0, never during the seed warm-up phase, and never when
eval_freq is zero (where the gate expression raises ZeroDivisionError) or
negative, even at exact multiples of eval_freq. -/
theorem C9_eval_gate (step nss : Nat) (ef : Int) :
    (evalGate step ef nss = Except.ok true ↔
      (Int.fmod (step : Int) ef = 0 ∧ 0 < step ∧ nss ≤ step ∧ 0 < ef))
    ∧ (ef ≤ 0 → ¬ evalGate step ef nss = Except.ok true)
    ∧ (¬ evalGate 0 ef nss = Except.ok true)
    ∧ (step < nss → ¬ evalGate step ef nss = Except.ok true)
    ∧ (evalGate step 0 nss = Except.error ("ZeroDivisionError")) := by
  refine ⟨evalGate_ok_iff step nss ef, ?_, ?_, ?_, ?_⟩
  · intro hle hok
    have := ((evalGate_ok_iff step nss ef).mp hok).2.2.2
    omega
  · intro hok
    have := ((evalGate_ok_iff 0 nss ef).mp hok).2.1
    omega
  · intro hlt hok
    have := ((evalGate_ok_iff step nss ef).mp hok).2.2.1
    omega
  · rfl

/-- C9 witness: step 10 is an exact multiple of eval_freq = -5 and past the
warm-up, yet evaluation is not triggered because eval_freq is negative;
step 0 is likewise never an evaluation step. -/
theorem C9_eval_gate_witness :
    Int.fmod (10 : Int) (-5) = 0
    ∧ ((-5 : Int) ≤ 0)
    ∧ ¬ evalGate 10 (-5) 0 = Except.ok true
    ∧ ¬ evalGate 0 5000 20 = Except.ok true :=
  ⟨by decide, by decide, (C9_eval_gate 10 0 (-5)).2.1 (by decide),
   (C9_eval_gate 0 20 5000).2.2.1⟩

/-- C10: action selection is a pure function of the explicit key, actor
parameters, observation and seed flag (two calls with equal explicit inputs
return equal actions, for both `_sample_action` and `_env_step`, with no
other influence); `_env_step` draws its action with the freshly split
act_rng_key and steps the environment with the freshly split env_rng_key,
and the three keys produced by the split are pairwise distinct and distinct
from the consumed parent key. -/
theorem C10_action_determinism {A P O S : Type} (seed_sampler : Key → A)
    (actor_sample : P → O → Key → A)
    (env_step_fn : Key → S → A → O × S × ℚ × Bool)
    (k : Key) (actor : P) (obs : O) (st : S) (seed : Bool) :
    (∀ k2 actor2 obs2 seed2, k2 = k → actor2 = actor → obs2 = obs →
      seed2 = seed →
      SAC.sample_action seed_sampler actor_sample k2 actor2 obs2 seed2
        = SAC.sample_action seed_sampler actor_sample k actor obs seed)
    ∧ (∀ k2 obs2 st2 actor2 seed2, k2 = k → obs2 = obs → st2 = st →
      actor2 = actor → seed2 = seed →
      SAC.env_step seed_sampler actor_sample env_step_fn k2 obs2 st2 actor2
          seed2
        = SAC.env_step seed_sampler actor_sample env_step_fn k obs st actor
          seed)
    ∧ (SAC.env_step seed_sampler actor_sample env_step_fn k obs st actor
        seed).1
      = SAC.sample_action seed_sampler actor_sample (split3 k).2.1 actor obs
        seed
    ∧ (SAC.env_step seed_sampler actor_sample env_step_fn k obs st actor
        seed).2
      = env_step_fn (split3 k).2.2 st
          (SAC.sample_action seed_sampler actor_sample (split3 k).2.1 actor
            obs seed)
    ∧ (split3 k).1 ≠ (split3 k).2.1
    ∧ (split3 k).1 ≠ (split3 k).2.2
    ∧ (split3 k).2.1 ≠ (split3 k).2.2
    ∧ (split3 k).2.1 ≠ k
    ∧ (split3 k).2.2 ≠ k := by
  refine ⟨?_, ?_, rfl, rfl, ?_, ?_, ?_, ?_, ?_⟩
  · intro k2 actor2 obs2 seed2 h1 h2 h3 h4
    subst h1; subst h2; subst h3; subst h4
    rfl
  · intro k2 obs2 st2 actor2 seed2 h1 h2 h3 h4 h5
    subst h1; subst h2; subst h3; subst h4; subst h5
    rfl
  · show ((3 * k + 1 : Nat) ≠ (3 * k + 2 : Nat))
    omega
  · show ((3 * k + 1 : Nat) ≠ (3 * k + 3 : Nat))
    omega
  · show ((3 * k + 2 : Nat) ≠ (3 * k + 3 : Nat))
    omega
  · show ((3 * k + 2 : Nat) ≠ (k : Nat))
    omega
  · show ((3 * k + 3 : Nat) ≠ (k : Nat))
    omega

/-- C10 witness: concrete instantiation over rational-valued observations,
actions and states with key 5. -/
theorem C10_action_determinism_witness :
    SAC.sample_action (fun _ => (0 : ℚ)) (fun _ _ _ => (1 : ℚ)) 16 (2 : ℚ)
        (3 : ℚ) false
      = SAC.sample_action (fun _ => (0 : ℚ)) (fun _ _ _ => (1 : ℚ)) 16
        (2 : ℚ) (3 : ℚ) false
    ∧ (split3 5).2.1 ≠ (split3 5).2.2
    ∧ (split3 5).2.1 ≠ 5 := by
  have h := C10_action_determinism (fun _ => (0 : ℚ))
    (fun _ _ _ => (1 : ℚ)) (fun _ (s : ℚ) (a : ℚ) => ((0 : ℚ), s, a, false))
    16 (2 : ℚ) (3 : ℚ) (4 : ℚ) false
  have h5 := C10_action_determinism (fun _ => (0 : ℚ))
    (fun _ _ _ => (1 : ℚ)) (fun _ (s : ℚ) (a : ℚ) => ((0 : ℚ), s, a, false))
    5 (2 : ℚ) (3 : ℚ) (4 : ℚ) false
  exact ⟨h.1 16 2 3 false rfl rfl rfl rfl, h5.2.2.2.2.2.2.1,
    h5.2.2.2.2.2.2.2.1⟩
